import Mathlib

set_option maxRecDepth 4000

/-!
Shallow embedding of the uyuni Terraform provider
(internal/provider/user_resource.go, internal/provider/users_data_source.go,
internal/provider/provider.go).

The terraform-plugin-framework runtime and the uyuni-tools api client are
external collaborators: remote calls (api.Post, api.Get, api.Init) are
passed in as explicit result values or functions, and framework value types
(types.String, types.Int64) are modelled as explicit null/unknown/value
data. Diagnostics are modelled as a list of (path, summary, detail)
records, matching AddError / AddAttributeError calls in the source.
-/

/-- terraform-plugin-framework types.String: a string attribute value is
null, unknown, or a known string. -/
inductive TFString where
  | null : TFString
  | unknown : TFString
  | value (s : String) : TFString
deriving DecidableEq

/-- Go ValueString(): the known string, or the empty string when the value
is null or unknown. -/
def TFString.valueString : TFString → String
  | .value s => s
  | _ => ""

/-- Go IsNull(). -/
def TFString.isNull : TFString → Bool
  | .null => true
  | _ => false

/-- Go IsUnknown(). -/
def TFString.isUnknown : TFString → Bool
  | .unknown => true
  | _ => false

/-- Go String() on types.String, as used by the tflog.Info call in Create:
the known value wrapped in double quotes, or a placeholder marker.
Escaping of special characters inside the value is not modelled. -/
def TFString.goString : TFString → String
  | .null => "<null>"
  | .unknown => "<unknown>"
  | .value s => "\"" ++ s ++ "\""

/-- One entry of resp.Diagnostics: AddAttributeError carries an attribute
path, AddError carries none. -/
structure Diagnostic where
  path : Option String
  summary : String
  detail : String
deriving DecidableEq

/-- userResourceModel from user_resource.go: the resource schema data. -/
structure userResourceModel where
  login : TFString
  password : TFString
  firstName : TFString
  lastName : TFString
  email : TFString
deriving DecidableEq

/-- The function-local user_api struct in userResource.Read: the wire
record returned by user/getDetails. The prefix field is renamed to
prefix_ because its Go name is a Lean keyword. -/
structure user_api where
  first_names : String
  first_name : String
  last_name : String
  email : String
  org_id : Int
  org_name : String
  prefix_ : String
  last_login_date : String
  created_date : String
  enabled : Bool
  use_pam : Bool
  read_only : Bool
  errata_notification : Bool
deriving DecidableEq

/-- Outcome of userResource.Create: the diagnostics added, the state
written by resp.State.Set (none when Create returned without setting
state), and the tflog.Info lines emitted. The final state-dump line
(fmt.Sprintf over the framework state object) is framework-internal
formatting and is outside the embedding. -/
structure CreateResponse where
  diagnostics : List Diagnostic
  state : Option userResourceModel
  log : List String
deriving DecidableEq

/-- The second tflog.Info line of userResource.Create, concatenating the
Go String() rendering of every plan field. -/
def userResource.createLogLine (plan : userResourceModel) : String :=
  "" ++ plan.login.goString ++ " - " ++ plan.password.goString ++ " - " ++
    plan.firstName.goString ++ " - " ++ plan.lastName.goString ++ " - " ++
    plan.email.goString

/-- userResource.Create. The plan has already been read from the request
(req.Plan.Get succeeded); postResult is the value of
api.Post[int](r.client, "user/create", data). -/
def userResource.create (plan : userResourceModel)
    (postResult : Except String Int) : CreateResponse :=
  match postResult with
  | .error e =>
      { diagnostics := [⟨none, "Error creating user",
          "Could not create user, unexpected error: " ++ e⟩],
        state := none,
        log := ["About to create user", userResource.createLogLine plan] }
  | .ok _ =>
      { diagnostics := [],
        state := some plan,
        log := ["About to create user", userResource.createLogLine plan,
                "User created"] }

/-- Outcome of userResource.Read: diagnostics added and the refreshed
state written by resp.State.Set (none when Read returned early, leaving
the tracked state unchanged). -/
structure ReadResponse where
  diagnostics : List Diagnostic
  state : Option userResourceModel
deriving DecidableEq

/-- userResource.Read. The current state has already been read from the
request; getResult is the Result envelope of
api.Get[user_api](r.client, "user/getDetails?login=" + login). -/
def userResource.read (state : userResourceModel)
    (getResult : Except String user_api) : ReadResponse :=
  match getResult with
  | .error e =>
      { diagnostics := [⟨none, "Error Reading Uyuuni user",
          "Could not read User " ++ state.login.valueString ++ ": " ++ e⟩],
        state := none }
  | .ok u =>
      { diagnostics := [],
        state := some { state with
          firstName := .value u.first_name,
          lastName := .value u.last_name,
          email := .value u.email } }

/-- userModel from users_data_source.go: one listing entry. The Go field
ID is types.Int64 built with types.Int64Value, always a known value here,
modelled as Int. -/
structure userModel where
  id : Int
  login : TFString
deriving DecidableEq

/-- The package-level user_api struct of users_data_source.go: one wire
record of user/listUsers. Named apart from the identically named struct
in user_resource.go. -/
structure user_api_listing where
  id : Int
  login : String
  login_UC : String
  enabled : Bool
deriving DecidableEq

/-- UsersDataSourceModel from users_data_source.go. -/
structure UsersDataSourceModel where
  users : List userModel
deriving DecidableEq

/-- Outcome of UsersDataSource.Read: diagnostics and the computed state
written by resp.State.Set (none on early error return). -/
structure ReadUsersResponse where
  diagnostics : List Diagnostic
  state : Option UsersDataSourceModel
deriving DecidableEq

/-- The range-and-append loop of UsersDataSource.Read, building the state
entry list by appending one userModel per wire record, in loop order. -/
def UsersDataSource.mapUsers (records : List user_api_listing) :
    List userModel :=
  records.foldl (fun acc u => acc ++ [⟨u.id, .value u.login⟩]) []

/-- UsersDataSource.Read; getResult is the Result envelope of
api.Get[[]user_api](d.client, "user/listUsers"). -/
def UsersDataSource.read (getResult : Except String (List user_api_listing)) :
    ReadUsersResponse :=
  match getResult with
  | .error e =>
      { diagnostics := [⟨none, "Unable to Read Uyuni user", e⟩],
        state := none }
  | .ok records =>
      { diagnostics := [],
        state := some ⟨UsersDataSource.mapUsers records⟩ }

/-- uyuniProviderModel from provider.go: the provider schema data. -/
structure uyuniProviderModel where
  host : TFString
  username : TFString
  password : TFString
deriving DecidableEq

/-- The three os.Getenv results read by Configure; an unset environment
variable reads as the empty string, exactly as os.Getenv returns. -/
structure Env where
  uyuni_host : String
  uyuni_username : String
  uyuni_password : String
deriving DecidableEq

/-- api.ConnectionDetails as constructed by Configure. -/
structure ConnectionDetails where
  server : String
  user : String
  password : String
  cacert : String
  insecure : Bool
deriving DecidableEq

/-- The api.HTTPClient handle; api.Init is external, so the handle is
modelled as a record of the connection it was initialised with. -/
structure HTTPClient where
  details : ConnectionDetails
deriving DecidableEq

/-- The per-field resolution pattern of Configure: start from the
environment value, override with the configuration value when it is not
null. -/
def uyuniProvider.resolveField (configVal : TFString) (envVal : String) :
    String :=
  if configVal.isNull then envVal else configVal.valueString

/-- The connection descriptor Configure passes to api.Init after
resolution: empty CA certificate, insecure transport. -/
def uyuniProvider.resolveConn (config : uyuniProviderModel) (env : Env) :
    ConnectionDetails :=
  { server := uyuniProvider.resolveField config.host env.uyuni_host,
    user := uyuniProvider.resolveField config.username env.uyuni_username,
    password := uyuniProvider.resolveField config.password env.uyuni_password,
    cacert := "",
    insecure := true }

/-- Outcome of uyuniProvider.Configure: diagnostics and the client handle
stored into resp.DataSourceData / resp.ResourceData (none on any error
return). -/
structure ConfigureResponse where
  diagnostics : List Diagnostic
  client : Option HTTPClient
deriving DecidableEq

/-- The unknown-value diagnostics block of Configure (lines 85-110 of
provider.go), accumulated in source order. -/
def uyuniProvider.unknownDiags (config : uyuniProviderModel) :
    List Diagnostic :=
  (if config.host.isUnknown then
    [⟨some "host", "Unknown Uyuni API Host",
      "The provider cannot create the Uyuni API client as there is an unknown configuration value for the Uyuni API host. " ++
        "Either target apply the source of the value first, set the value statically in the configuration, or use the Uyuni_HOST environment variable."⟩]
   else []) ++
  (if config.username.isUnknown then
    [⟨some "username", "Unknown Uyuni API Username",
      "The provider cannot create the Uyuni API client as there is an unknown configuration value for the Uyuni API username. " ++
        "Either target apply the source of the value first, set the value statically in the configuration, or use the Uyuni_USERNAME environment variable."⟩]
   else []) ++
  (if config.password.isUnknown then
    [⟨some "password", "Unknown Uyuni API Password",
      "The provider cannot create the Uyuni API client as there is an unknown configuration value for the Uyuni API password. " ++
        "Either target apply the source of the value first, set the value statically in the configuration, or use the Uyuni_PASSWORD environment variable."⟩]
   else [])

/-- The missing-value diagnostics block of Configure (lines 138-166 of
provider.go), over the resolved values, accumulated in source order. -/
def uyuniProvider.missingDiags (host username password : String) :
    List Diagnostic :=
  (if host = "" then
    [⟨some "host", "Missing Uyuni API Host",
      "The provider cannot create the Uyuni API client as there is a missing or empty value for the Uyuni API host. " ++
        "Set the host value in the configuration or use the Uyuni_HOST environment variable. " ++
        "If either is already set, ensure the value is not empty."⟩]
   else []) ++
  (if username = "" then
    [⟨some "username", "Missing Uyuni API Username",
      "The provider cannot create the Uyuni API client as there is a missing or empty value for the Uyuni API username. " ++
        "Set the username value in the configuration or use the Uyuni_USERNAME environment variable. " ++
        "If either is already set, ensure the value is not empty."⟩]
   else []) ++
  (if password = "" then
    [⟨some "password", "Missing Uyuni API Password",
      "The provider cannot create the Uyuni API client as there is a missing or empty value for the Uyuni API password. " ++
        "Set the password value in the configuration or use the Uyuni_PASSWORD environment variable. " ++
        "If either is already set, ensure the value is not empty."⟩]
   else [])

/-- uyuniProvider.Configure. The configuration record has already been
read from the request (req.Config.Get succeeded); init models api.Init
over the constructed connection descriptor. Each HasError check returns
early, so the later blocks run only when the earlier ones added no
diagnostic. -/
def uyuniProvider.configure (config : uyuniProviderModel) (env : Env)
    (init : ConnectionDetails → Except String HTTPClient) :
    ConfigureResponse :=
  let unknown := uyuniProvider.unknownDiags config
  if unknown.isEmpty then
    let conn := uyuniProvider.resolveConn config env
    let missing := uyuniProvider.missingDiags conn.server conn.user conn.password
    if missing.isEmpty then
      match init conn with
      | .error e =>
          { diagnostics := [⟨none, "Unable to Create Uyuni API Client",
              "An unexpected error occurred when creating the Uyuni API client. " ++
                "If the error is not clear, please contact the provider developers.\n\n" ++
                "Uyuni Client Error: " ++ e⟩],
            client := none }
      | .ok c => { diagnostics := [], client := some c }
    else { diagnostics := missing, client := none }
  else { diagnostics := unknown, client := none }

/-- req.ProviderData as seen by the Configure methods of the resource and
the data source: Terraform hands over either the *api.HTTPClient stored
by the provider or a value of some other dynamic type (identified here by
its type name, the %T rendering). -/
inductive ProviderData where
  | httpClient (c : HTTPClient)
  | other (typeName : String)
deriving DecidableEq

/-- userResource.Configure: nil provider data returns silently; a value
of the wrong dynamic type adds an error and leaves the handle alone; a
client handle is stored. -/
def userResource.configure (current : Option HTTPClient)
    (providerData : Option ProviderData) :
    List Diagnostic × Option HTTPClient :=
  match providerData with
  | none => ([], current)
  | some (.httpClient c) => ([], some c)
  | some (.other ty) =>
      ([⟨none, "Unexpected Data Source Configure Type",
          "Expected *uyuni.client, got: " ++ ty ++
            ". Please report this issue to the provider developers."⟩],
       current)

/-- UsersDataSource.Configure: same shape as userResource.Configure, with
the data-source wording of the type mismatch detail. -/
def UsersDataSource.configure (current : Option HTTPClient)
    (providerData : Option ProviderData) :
    List Diagnostic × Option HTTPClient :=
  match providerData with
  | none => ([], current)
  | some (.httpClient c) => ([], some c)
  | some (.other ty) =>
      ([⟨none, "Unexpected Data Source Configure Type",
          "Expected *api.HTTPClient, got: " ++ ty ++
            ". Please report this issue to the provider developers."⟩],
       current)

/-! Helper lemmas shared by the claim theorems. -/

theorem string_append_left_cancel {a b c : String} (h : a ++ b = a ++ c) :
    b = c := by
  apply String.ext
  have h2 := congrArg String.data h
  simp only [String.data_append] at h2
  exact List.append_cancel_left h2

theorem string_append_right_cancel {a b c : String} (h : a ++ c = b ++ c) :
    a = b := by
  apply String.ext
  have h2 := congrArg String.data h
  simp only [String.data_append] at h2
  exact List.append_cancel_right h2

theorem foldl_append_singleton {α β : Type} (f : α → β) (l : List α)
    (acc : List β) :
    l.foldl (fun a u => a ++ [f u]) acc = acc ++ l.map f := by
  induction l generalizing acc with
  | nil => simp
  | cons r rs ih => simp [List.foldl_cons, ih]

theorem UsersDataSource.mapUsers_eq_map (records : List user_api_listing) :
    UsersDataSource.mapUsers records =
      records.map (fun u => ⟨u.id, .value u.login⟩) := by
  simpa [UsersDataSource.mapUsers] using
    foldl_append_singleton (fun u : user_api_listing =>
      (⟨u.id, .value u.login⟩ : userModel)) records []

theorem logLine_core_injective (A B C D p₁ p₂ : String)
    (h : "" ++ A ++ " - " ++ ("\"" ++ p₁ ++ "\"") ++ " - " ++ B ++ " - " ++
          C ++ " - " ++ D =
         "" ++ A ++ " - " ++ ("\"" ++ p₂ ++ "\"") ++ " - " ++ B ++ " - " ++
          C ++ " - " ++ D) :
    p₁ = p₂ := by
  apply String.ext
  have h2 := congrArg String.data h
  simp only [String.data_append, List.append_assoc] at h2
  have h3 := List.append_cancel_left (List.append_cancel_left
    (List.append_cancel_left (List.append_cancel_left h2)))
  exact List.append_cancel_right h3

/-! Claim theorems. -/

/-- Claim C1: after a successful Read of the user resource the state holds
the firstname, lastname and email returned by user/getDetails, while the
login and password fields are exactly the values held before the Read. -/
theorem userResource_read_success_refreshes_names (state : userResourceModel)
    (u : user_api) :
    (userResource.read state (.ok u)).diagnostics = [] ∧
    ∃ s, (userResource.read state (.ok u)).state = some s ∧
      s.firstName = .value u.first_name ∧
      s.lastName = .value u.last_name ∧
      s.email = .value u.email ∧
      s.login = state.login ∧
      s.password = state.password :=
  ⟨rfl, _, rfl, rfl, rfl, rfl, rfl, rfl⟩

/-- Claim C2: when user/create succeeds, Create writes exactly the
submitted plan as the new state, with no diagnostics and no read-back of
server-side values. -/
theorem userResource_create_success_state_is_plan (plan : userResourceModel)
    (n : Int) :
    (userResource.create plan (.ok n)).diagnostics = [] ∧
    (userResource.create plan (.ok n)).state = some plan :=
  ⟨rfl, rfl⟩

/-- Claim C3: the users data source Read maps each user/listUsers record
to one listing entry with its id and login, in the same order with no
entry dropped or duplicated, and an empty server response yields zero
entries and no error. -/
theorem usersDataSource_read_preserves_listing
    (records : List user_api_listing) :
    (UsersDataSource.read (.ok records)).diagnostics = [] ∧
    ∃ st, (UsersDataSource.read (.ok records)).state = some st ∧
      st.users.length = records.length ∧
      ∀ i : Nat, st.users[i]? =
        (records[i]?).map fun u => (⟨u.id, .value u.login⟩ : userModel) := by
  refine ⟨rfl, ⟨UsersDataSource.mapUsers records⟩, rfl, ?_, ?_⟩
  · simp [UsersDataSource.mapUsers_eq_map]
  · intro i
    simp [UsersDataSource.mapUsers_eq_map]

/-- Claim C4: in provider Configure a non-null configuration value is used
as-is and a null one falls back to the matching environment variable; in
particular host set to h with only the username and password environment
variables set to u and p resolves to the connection (h, u, p). -/
theorem uyuniProvider_configure_resolution :
    (∀ envVal v : String,
        uyuniProvider.resolveField (.value v) envVal = v) ∧
    (∀ envVal : String,
        uyuniProvider.resolveField .null envVal = envVal) ∧
    uyuniProvider.resolveConn ⟨.value "h", .null, .null⟩ ⟨"", "u", "p"⟩ =
      ⟨"h", "u", "p", "", true⟩ ∧
    uyuniProvider.configure ⟨.value "h", .null, .null⟩ ⟨"", "u", "p"⟩
        (fun c => .ok ⟨c⟩) =
      ⟨[], some ⟨⟨"h", "u", "p", "", true⟩⟩⟩ :=
  ⟨fun _ _ => rfl, fun _ => rfl, rfl, rfl⟩

/-- Claim C5: with all three configuration values null and all three
environment variables unset, Configure reports exactly the three
missing-value errors for host, username and password together, and does
not construct the client, whatever api.Init would do. -/
theorem uyuniProvider_configure_all_missing
    (init : ConnectionDetails → Except String HTTPClient) :
    (uyuniProvider.configure ⟨.null, .null, .null⟩ ⟨"", "", ""⟩
        init).diagnostics.map Diagnostic.summary =
      ["Missing Uyuni API Host", "Missing Uyuni API Username",
        "Missing Uyuni API Password"] ∧
    (uyuniProvider.configure ⟨.null, .null, .null⟩ ⟨"", "", ""⟩
        init).client = none :=
  ⟨rfl, rfl⟩

/-- Claim C5 witness: the theorem applied at a concrete api.Init. -/
theorem uyuniProvider_configure_all_missing_witness :
    (uyuniProvider.configure ⟨.null, .null, .null⟩ ⟨"", "", ""⟩
        (fun c => .ok ⟨c⟩)).diagnostics.map Diagnostic.summary =
      ["Missing Uyuni API Host", "Missing Uyuni API Username",
        "Missing Uyuni API Password"] ∧
    (uyuniProvider.configure ⟨.null, .null, .null⟩ ⟨"", "", ""⟩
        (fun c => .ok ⟨c⟩)).client = none :=
  uyuniProvider_configure_all_missing (fun c => .ok ⟨c⟩)

/-- Claim C6: when user/create fails, Create adds exactly one error
diagnostic and writes no state, so the resource remains absent. -/
theorem userResource_create_failure_atomic (plan : userResourceModel)
    (e : String) :
    (userResource.create plan (.error e)).state = none ∧
    (userResource.create plan (.error e)).diagnostics =
      [⟨none, "Error creating user",
        "Could not create user, unexpected error: " ++ e⟩] :=
  ⟨rfl, rfl⟩

/-- Claim C7: when user/getDetails fails, Read adds one error diagnostic
whose detail contains the login from the state and the underlying cause,
and writes no state, leaving the tracked state unchanged. -/
theorem userResource_read_failure_keeps_state (state : userResourceModel)
    (e : String) :
    ∃ d, (userResource.read state (.error e)).diagnostics = [d] ∧
      (∃ pre mid, d.detail = pre ++ state.login.valueString ++ mid ++ e) ∧
      (userResource.read state (.error e)).state = none :=
  ⟨_, rfl, ⟨"Could not read User ", ": ", rfl⟩, rfl⟩

/-- Claim C8 counterexample: on a failed Create the diagnostic message is
not equal to the underlying error message; the detail prepends fixed
context text and the summary is a fixed title. -/
theorem userResource_create_error_not_verbatim :
    (userResource.create
        ⟨.value "sgiertz", .value "test123", .value "Simone",
          .value "Giertz", .value "sgiertz@foo.bar"⟩
        (.error "boom")).diagnostics =
      [⟨none, "Error creating user",
        "Could not create user, unexpected error: boom"⟩] ∧
    ("Could not create user, unexpected error: boom" ≠ "boom") ∧
    ("Error creating user" ≠ "boom") :=
  ⟨rfl, by decide, by decide⟩

/-- Claim C8 amended: on a failed Create the underlying error message
appears verbatim as the suffix of the single diagnostic detail, after a
fixed context string. -/
theorem userResource_create_error_propagates_cause (plan : userResourceModel)
    (e : String) :
    ∃ ctx, (userResource.create plan (.error e)).diagnostics.map
        Diagnostic.detail = [ctx ++ e] :=
  ⟨"Could not create user, unexpected error: ", rfl⟩

/-- Claim C9: Create logs the plaintext password: some log line contains
the password value verbatim, and two Create runs that differ only in the
password produce different log output. -/
theorem userResource_create_logs_plaintext_password :
    (∀ (plan : userResourceModel) (p : String) (r : Except String Int),
        plan.password = .value p →
        ∃ line ∈ (userResource.create plan r).log,
          ∃ pre post, line = pre ++ p ++ post) ∧
    (∀ (plan : userResourceModel) (p₁ p₂ : String) (r : Except String Int),
        p₁ ≠ p₂ →
        (userResource.create { plan with password := .value p₁ } r).log ≠
          (userResource.create { plan with password := .value p₂ } r).log) := by
  constructor
  · intro plan p r hp
    refine ⟨userResource.createLogLine plan, ?_, ?_⟩
    · cases r <;> simp [userResource.create]
    · refine ⟨"" ++ plan.login.goString ++ " - " ++ "\"",
        "\"" ++ " - " ++ plan.firstName.goString ++ " - " ++
          plan.lastName.goString ++ " - " ++ plan.email.goString, ?_⟩
      apply String.ext
      simp only [userResource.createLogLine, hp, TFString.goString,
        String.data_append, List.append_assoc]
  · intro plan p₁ p₂ r hne heq
    apply hne
    have hline : userResource.createLogLine
          { plan with password := .value p₁ } =
        userResource.createLogLine { plan with password := .value p₂ } := by
      cases r <;> simpa [userResource.create] using heq
    exact logLine_core_injective plan.login.goString plan.firstName.goString
      plan.lastName.goString plan.email.goString p₁ p₂ hline

/-- Claim C9 witness: the theorem applied at concrete plans; the password
test123 appears in the log, and changing only the password from a to b
changes the log. -/
theorem userResource_create_logs_plaintext_password_witness :
    (∃ line ∈ (userResource.create
        ⟨.value "sgiertz", .value "test123", .value "Simone",
          .value "Giertz", .value "sgiertz@foo.bar"⟩ (.ok 0)).log,
      ∃ pre post, line = pre ++ "test123" ++ post) ∧
    (userResource.create
        ⟨.value "l", .value "a", .value "f", .value "n", .value "e"⟩
        (.ok 0)).log ≠
      (userResource.create
        ⟨.value "l", .value "b", .value "f", .value "n", .value "e"⟩
        (.ok 0)).log :=
  ⟨userResource_create_logs_plaintext_password.1 _ "test123" (.ok 0) rfl,
    userResource_create_logs_plaintext_password.2
      ⟨.value "l", .value "a", .value "f", .value "n", .value "e"⟩
      "a" "b" (.ok 0) (by decide)⟩

/-- Claim C10: Configure on the user resource and on the users data source
returns silently on nil provider data, leaving the client handle as it
was, and on provider data of any other type adds one Unexpected Data
Source Configure Type error and leaves the handle as it was. -/
theorem configure_provider_data_handling :
    (∀ cur : Option HTTPClient,
        userResource.configure cur none = ([], cur) ∧
        UsersDataSource.configure cur none = ([], cur)) ∧
    (∀ (cur : Option HTTPClient) (ty : String),
        (userResource.configure cur (some (.other ty))).1.map
            Diagnostic.summary = ["Unexpected Data Source Configure Type"] ∧
        (userResource.configure cur (some (.other ty))).2 = cur ∧
        (UsersDataSource.configure cur (some (.other ty))).1.map
            Diagnostic.summary = ["Unexpected Data Source Configure Type"] ∧
        (UsersDataSource.configure cur (some (.other ty))).2 = cur) :=
  ⟨fun _ => ⟨rfl, rfl⟩, fun _ _ => ⟨rfl, rfl, rfl, rfl⟩⟩
